import Mathlib

/-!
Verification development for the CTRF insights engine of the
github-test-reporter repository.

The embedding below follows the standalone insights module (types,
`isTestFlaky`, `validateReportForInsights`, `aggregateTestMetricsAcrossReports`,
`consolidateTestMetricsToRunMetrics`, the rate derivers, the test-level rate
functions, `calculateCurrentInsights`, `calculateReportInsightsBaseline`) and
the previous-runs extraction module (`extractPreviousRunsData`).

Modelling conventions:
- JavaScript numbers are modelled as `ℚ` where durations/rates are involved
  and as `Nat` for counters; epoch timestamps are `Int`.
- Optional fields are `Option`; the JS truthiness of `x || d` on an optional
  numeric field is modelled with `Option.getD`, and on an optional string
  with `jsStringOr` (the empty string is falsy).
- A `Map<string, T>` in insertion order is modelled as an association list
  `List (String × T)` with in-place update (`alSet`, `alUpdate`); `Map.size`
  is the list length (keys are unique by construction of the operations).
- `Number(x.toFixed(2))` is modelled as `round2` (round to two decimals).
- The report's `results.tests` field is `Option (List CtrfTest)`, so that a
  structurally malformed report (missing / non-array `tests`) is expressible,
  matching `validateReportForInsights`.
- Fields that the analysed functions never read (tool metadata, suites,
  traces, screenshots, per-step data, ...) are omitted from the shapes.
-/

namespace Ctrf

inductive CtrfTestState where
  | passed
  | failed
  | skipped
  | pending
  | other
deriving DecidableEq

structure CtrfTest where
  name : String
  status : CtrfTestState
  duration : ℚ
  retries : Option Nat
  flaky : Option Bool
deriving DecidableEq

structure Summary where
  tests : Nat
  passed : Nat
  failed : Nat
  skipped : Nat
  pending : Nat
  other : Nat
  start : Int
  stop : Int
deriving DecidableEq

structure CtrfEnvironment where
  buildNumber : Option String
  buildUrl : Option String
deriving DecidableEq

structure InsightsMetric where
  current : ℚ
  previous : ℚ
  change : ℚ
deriving DecidableEq

/-- The eight run-level counters that remain after destructuring
`reportsAnalyzed` away (the `relevantMetrics` rest object stored in
`Insights.extra`). -/
structure RelevantRunMetrics where
  totalAttempts : Nat
  totalAttemptsFailed : Nat
  totalResults : Nat
  totalResultsFailed : Nat
  totalResultsPassed : Nat
  totalResultsSkipped : Nat
  totalResultsFlaky : Nat
  totalResultsDuration : ℚ
deriving DecidableEq

structure Insights where
  flakyRate : InsightsMetric
  failRate : InsightsMetric
  skippedRate : InsightsMetric
  averageTestDuration : InsightsMetric
  averageRunDuration : InsightsMetric
  reportsAnalyzed : Nat
  extra : Option RelevantRunMetrics
deriving DecidableEq

structure Results where
  summary : Summary
  tests : Option (List CtrfTest)
  environment : Option CtrfEnvironment
deriving DecidableEq

structure CtrfReport where
  results : Results
  insights : Option Insights
deriving DecidableEq

/-- Base run-level metrics aggregated across multiple reports. -/
structure AggregatedRunMetrics where
  totalAttempts : Nat
  totalAttemptsFailed : Nat
  totalResults : Nat
  totalResultsFailed : Nat
  totalResultsPassed : Nat
  totalResultsSkipped : Nat
  totalResultsFlaky : Nat
  totalResultsDuration : ℚ
  reportsAnalyzed : Nat
deriving DecidableEq

/-- Aggregated run metrics for a single test across multiple reports. -/
structure AggregatedTestMetrics extends AggregatedRunMetrics where
  appearsInRuns : Nat
deriving DecidableEq

-- ========================================
-- UTILITY FUNCTIONS
-- ========================================

/-- `isTestFlaky`: a test is flaky when its `flaky` flag is truthy, or its
`retries` field is truthy, greater than zero, and the final status is
`passed`. -/
def isTestFlaky (test : CtrfTest) : Bool :=
  test.flaky.getD false
    || decide (0 < test.retries.getD 0 ∧ test.status = CtrfTestState.passed)

/-- `validateReportForInsights`: the report has a `results.tests` array. -/
def validateReportForInsights (report : CtrfReport) : Bool :=
  report.results.tests.isSome

-- ========================================
-- ASSOCIATION-LIST MAP OPERATIONS
-- ========================================

/-- Lookup in an insertion-ordered association list (`Map.get`). -/
def alFind? {α : Type} : List (String × α) → String → Option α
  | [], _ => none
  | (k, v) :: rest, key => if k = key then some v else alFind? rest key

/-- `Map.set`: replace the value at an existing key in place, otherwise
append the binding at the end. -/
def alSet {α : Type} : List (String × α) → String → α → List (String × α)
  | [], key, v => [(key, v)]
  | (k, w) :: rest, key, v =>
      if k = key then (k, v) :: rest else (k, w) :: alSet rest key v

/-- Apply a function to the value stored at a key, leaving the list
unchanged when the key is absent (the source always updates present keys). -/
def alUpdate {α : Type} : List (String × α) → String → (α → α) → List (String × α)
  | [], _, _ => []
  | (k, w) :: rest, key, f =>
      if k = key then (k, f w) :: rest else (k, w) :: alUpdate rest key f

-- ========================================
-- AGGREGATION
-- ========================================

/-- The zero-initialised entry created on first observation of a test name. -/
def emptyTestMetrics : AggregatedTestMetrics :=
  { totalAttempts := 0
    totalAttemptsFailed := 0
    totalResults := 0
    totalResultsFailed := 0
    totalResultsPassed := 0
    totalResultsSkipped := 0
    totalResultsFlaky := 0
    totalResultsDuration := 0
    reportsAnalyzed := 0
    appearsInRuns := 0 }

/-- The per-test mutation performed for one test record of one report inside
`aggregateTestMetricsAcrossReports`. -/
def recordTestResult (metrics : AggregatedTestMetrics) (test : CtrfTest) :
    AggregatedTestMetrics :=
  let retries := test.retries.getD 0
  let m1 :=
    { metrics with
      totalResults := metrics.totalResults + 1
      totalAttempts := metrics.totalAttempts + (1 + retries)
      totalAttemptsFailed := metrics.totalAttemptsFailed + retries }
  let m2 :=
    if test.status = CtrfTestState.failed then
      { m1 with
        totalResultsFailed := m1.totalResultsFailed + 1
        totalAttemptsFailed := m1.totalAttemptsFailed + (1 + retries) }
    else if test.status = CtrfTestState.passed then
      { m1 with totalResultsPassed := m1.totalResultsPassed + 1 }
    else
      { m1 with totalResultsSkipped := m1.totalResultsSkipped + 1 }
  let m3 :=
    if isTestFlaky test then
      { m2 with totalResultsFlaky := m2.totalResultsFlaky + 1 }
    else m2
  { m3 with totalResultsDuration := m3.totalResultsDuration + test.duration }

/-- Processing one test of a report: create the zero entry when the name is
new, then mutate it with `recordTestResult`. -/
def processTest (metricsMap : List (String × AggregatedTestMetrics))
    (test : CtrfTest) : List (String × AggregatedTestMetrics) :=
  alSet metricsMap test.name
    (recordTestResult ((alFind? metricsMap test.name).getD emptyTestMetrics) test)

/-- The end-of-report pass bumping `appearsInRuns` once for a name that
appeared in the report. -/
def bumpAppearsInRuns (metricsMap : List (String × AggregatedTestMetrics))
    (testName : String) : List (String × AggregatedTestMetrics) :=
  alUpdate metricsMap testName
    (fun m => { m with appearsInRuns := m.appearsInRuns + 1 })

/-- Folding one report into the metrics map: skip it when structurally
invalid; otherwise accumulate every test record, then bump `appearsInRuns`
once per distinct name in this report (the per-report `Set` of names). -/
def processReport (metricsMap : List (String × AggregatedTestMetrics))
    (report : CtrfReport) : List (String × AggregatedTestMetrics) :=
  if validateReportForInsights report then
    let tests := report.results.tests.getD []
    let m1 := tests.foldl processTest metricsMap
    ((tests.map CtrfTest.name).dedup).foldl bumpAppearsInRuns m1
  else metricsMap

/-- `aggregateTestMetricsAcrossReports`: fold all reports, in order, into a
fresh map from test name to accumulated metrics. -/
def aggregateTestMetricsAcrossReports (reports : List CtrfReport) :
    List (String × AggregatedTestMetrics) :=
  reports.foldl processReport []

/-- `consolidateTestMetricsToRunMetrics`: sum every counter across the map's
values; `reportsAnalyzed` is set to the map's size. -/
def consolidateTestMetricsToRunMetrics
    (metricsMap : List (String × AggregatedTestMetrics)) : AggregatedRunMetrics :=
  let totals := metricsMap.foldl
    (fun (acc : AggregatedRunMetrics) (entry : String × AggregatedTestMetrics) =>
      { acc with
        totalAttempts := acc.totalAttempts + entry.2.totalAttempts
        totalAttemptsFailed := acc.totalAttemptsFailed + entry.2.totalAttemptsFailed
        totalResults := acc.totalResults + entry.2.totalResults
        totalResultsFailed := acc.totalResultsFailed + entry.2.totalResultsFailed
        totalResultsPassed := acc.totalResultsPassed + entry.2.totalResultsPassed
        totalResultsSkipped := acc.totalResultsSkipped + entry.2.totalResultsSkipped
        totalResultsFlaky := acc.totalResultsFlaky + entry.2.totalResultsFlaky
        totalResultsDuration := acc.totalResultsDuration + entry.2.totalResultsDuration })
    { totalAttempts := 0
      totalAttemptsFailed := 0
      totalResults := 0
      totalResultsFailed := 0
      totalResultsPassed := 0
      totalResultsSkipped := 0
      totalResultsFlaky := 0
      totalResultsDuration := 0
      reportsAnalyzed := 0 }
  { totals with reportsAnalyzed := metricsMap.length }

-- ========================================
-- RATE / STATISTIC DERIVERS
-- ========================================

/-- `Number(x.toFixed(2))`: round to two decimal places. -/
def round2 (x : ℚ) : ℚ := (round (x * 100) : ℚ) / 100

/-- Run-level flaky rate: `(totalResultsFlaky / totalAttempts) * 100`,
guarded to `0` when `totalAttempts` is `0`. -/
def calculateFlakyRateFromMetrics (runMetrics : AggregatedRunMetrics) : ℚ :=
  if runMetrics.totalAttempts = 0 then 0
  else round2 ((runMetrics.totalResultsFlaky : ℚ) / (runMetrics.totalAttempts : ℚ) * 100)

/-- Run-level fail rate: `(totalResultsFailed / totalResults) * 100`,
guarded to `0` when `totalResults` is `0`. -/
def calculateFailRateFromMetrics (runMetrics : AggregatedRunMetrics) : ℚ :=
  if runMetrics.totalResults = 0 then 0
  else round2 ((runMetrics.totalResultsFailed : ℚ) / (runMetrics.totalResults : ℚ) * 100)

/-- Run-level skipped rate: `(totalResultsSkipped / totalResults) * 100`,
guarded to `0` when `totalResults` is `0`. -/
def calculateSkippedRateFromMetrics (runMetrics : AggregatedRunMetrics) : ℚ :=
  if runMetrics.totalResults = 0 then 0
  else round2 ((runMetrics.totalResultsSkipped : ℚ) / (runMetrics.totalResults : ℚ) * 100)

/-- Run-level average test duration: `totalResultsDuration / totalResults`,
guarded to `0` when `totalResults` is `0`. -/
def calculateAverageTestDurationFromMetrics (runMetrics : AggregatedRunMetrics) : ℚ :=
  if runMetrics.totalResults = 0 then 0
  else round2 (runMetrics.totalResultsDuration / (runMetrics.totalResults : ℚ))

/-- Run-level average run duration: `totalResultsDuration / reportsAnalyzed`,
guarded to `0` when `reportsAnalyzed` is `0`. -/
def calculateAverageRunDurationFromMetrics (runMetrics : AggregatedRunMetrics) : ℚ :=
  if runMetrics.reportsAnalyzed = 0 then 0
  else round2 (runMetrics.totalResultsDuration / (runMetrics.reportsAnalyzed : ℚ))

/-- The `{ reportsAnalyzed, ...relevantMetrics }` destructuring. -/
def dropReportsAnalyzed (m : AggregatedRunMetrics) : RelevantRunMetrics :=
  { totalAttempts := m.totalAttempts
    totalAttemptsFailed := m.totalAttemptsFailed
    totalResults := m.totalResults
    totalResultsFailed := m.totalResultsFailed
    totalResultsPassed := m.totalResultsPassed
    totalResultsSkipped := m.totalResultsSkipped
    totalResultsFlaky := m.totalResultsFlaky
    totalResultsDuration := m.totalResultsDuration }

/-- `calculateCurrentInsights`: aggregate `[currentReport, ...previousReports]`,
consolidate, and emit a current-only snapshot (`previous = 0`, `change = 0`),
with `reportsAnalyzed` set to the number of reports passed in and the
consolidated counters attached as `extra`. -/
def calculateCurrentInsights (currentReport : CtrfReport)
    (previousReports : List CtrfReport) : Insights :=
  let allReports := currentReport :: previousReports
  let testMetrics := aggregateTestMetricsAcrossReports allReports
  let runMetrics := consolidateTestMetricsToRunMetrics testMetrics
  { flakyRate :=
      { current := calculateFlakyRateFromMetrics runMetrics, previous := 0, change := 0 }
    failRate :=
      { current := calculateFailRateFromMetrics runMetrics, previous := 0, change := 0 }
    skippedRate :=
      { current := calculateSkippedRateFromMetrics runMetrics, previous := 0, change := 0 }
    averageTestDuration :=
      { current := calculateAverageTestDurationFromMetrics runMetrics, previous := 0, change := 0 }
    averageRunDuration :=
      { current := calculateAverageRunDurationFromMetrics runMetrics, previous := 0, change := 0 }
    reportsAnalyzed := allReports.length
    extra := some (dropReportsAnalyzed runMetrics) }

-- ========================================
-- TEST-LEVEL INSIGHTS FUNCTIONS
-- ========================================

/-- Test-level flaky rate for a specific test: note the denominator is the
test's `totalResults`. -/
def calculateTestFlakyRate (testName : String)
    (testMetrics : AggregatedTestMetrics) : InsightsMetric :=
  let current : ℚ :=
    if testMetrics.totalResults = 0 then 0
    else round2 ((testMetrics.totalResultsFlaky : ℚ) / (testMetrics.totalResults : ℚ) * 100)
  { current := current, previous := 0, change := 0 }

/-- Test-level fail rate for a specific test. -/
def calculateTestFailRate (testName : String)
    (testMetrics : AggregatedTestMetrics) : InsightsMetric :=
  let current : ℚ :=
    if testMetrics.totalResults = 0 then 0
    else round2 ((testMetrics.totalResultsFailed : ℚ) / (testMetrics.totalResults : ℚ) * 100)
  { current := current, previous := 0, change := 0 }

/-- Test-level skipped rate for a specific test. -/
def calculateTestSkippedRate (testName : String)
    (testMetrics : AggregatedTestMetrics) : InsightsMetric :=
  let current : ℚ :=
    if testMetrics.totalResults = 0 then 0
    else round2 ((testMetrics.totalResultsSkipped : ℚ) / (testMetrics.totalResults : ℚ) * 100)
  { current := current, previous := 0, change := 0 }

/-- Test-level average duration for a specific test. -/
def calculateTestAverageDuration (testName : String)
    (testMetrics : AggregatedTestMetrics) : InsightsMetric :=
  let current : ℚ :=
    if testMetrics.totalResults = 0 then 0
    else round2 (testMetrics.totalResultsDuration / (testMetrics.totalResults : ℚ))
  { current := current, previous := 0, change := 0 }

-- ========================================
-- BASELINE INSIGHTS FUNCTIONS
-- ========================================

/-- `calculateReportInsightsBaseline`: when both reports carry insights,
pair the snapshots metric by metric (`current`, `previous`, rounded
`change`); otherwise log a diagnostic and return the current report's
(possibly absent) insights unchanged. The JS return value `undefined` of the
degraded branch is the `none` of the `Option` result. -/
def calculateReportInsightsBaseline (currentReport previousReport : CtrfReport) :
    Option Insights :=
  match currentReport.insights, previousReport.insights with
  | some currentInsights, some previousInsights =>
      some
        { flakyRate :=
            { current := currentInsights.flakyRate.current
              previous := previousInsights.flakyRate.current
              change := round2 (currentInsights.flakyRate.current -
                previousInsights.flakyRate.current) }
          failRate :=
            { current := currentInsights.failRate.current
              previous := previousInsights.failRate.current
              change := round2 (currentInsights.failRate.current -
                previousInsights.failRate.current) }
          skippedRate :=
            { current := currentInsights.skippedRate.current
              previous := previousInsights.skippedRate.current
              change := round2 (currentInsights.skippedRate.current -
                previousInsights.skippedRate.current) }
          averageTestDuration :=
            { current := currentInsights.averageTestDuration.current
              previous := previousInsights.averageTestDuration.current
              change := round2 (currentInsights.averageTestDuration.current -
                previousInsights.averageTestDuration.current) }
          averageRunDuration :=
            { current := currentInsights.averageRunDuration.current
              previous := previousInsights.averageRunDuration.current
              change := round2 (currentInsights.averageRunDuration.current -
                previousInsights.averageRunDuration.current) }
          reportsAnalyzed := currentInsights.reportsAnalyzed
          extra := currentInsights.extra }
  | _, _ => currentReport.insights

-- ========================================
-- HISTORICAL RUN EXTRACTION
-- ========================================

inductive RunStatus where
  | passed
  | failed
  | mixed
deriving DecidableEq

structure PreviousRunData where
  id : String
  date : Int
  status : RunStatus
  passed : Nat
  failed : Nat
  skipped : Nat
  flaky : Nat
  duration : Int
  buildUrl : Option String
  buildNumber : Option String
deriving DecidableEq

/-- JS `s || fallback` on an optional string: the empty string is falsy. -/
def jsStringOr (o : Option String) (fallback : String) : String :=
  match o with
  | some s => if s = "" then fallback else s
  | none => fallback

/-- The body of the `map` callback of `extractPreviousRunsData` for the
report at a given index. -/
def extractRunData (index : Nat) (report : CtrfReport) : PreviousRunData :=
  let summary := report.results.summary
  let environment := report.results.environment
  let flakyCount :=
    ((report.results.tests.getD []).filter (fun t => decide (t.flaky = some true))).length
  let duration := summary.stop - summary.start
  let runStatus :=
    if 0 < summary.failed then
      (if 0 < summary.passed then RunStatus.mixed else RunStatus.failed)
    else RunStatus.passed
  let runId := jsStringOr (environment.bind CtrfEnvironment.buildNumber)
    (toString summary.start ++ "_" ++ toString index)
  { id := runId
    date := summary.start
    status := runStatus
    passed := summary.passed
    failed := summary.failed
    skipped := summary.skipped
    flaky := flakyCount
    duration := duration
    buildUrl := environment.bind CtrfEnvironment.buildUrl
    buildNumber := environment.bind CtrfEnvironment.buildNumber }

/-- Index-carrying recursion behind `extractPreviousRunsData`. -/
def extractPreviousRunsDataAux (index : Nat) :
    List CtrfReport → List PreviousRunData
  | [] => []
  | report :: rest =>
      extractRunData index report :: extractPreviousRunsDataAux (index + 1) rest

/-- `extractPreviousRunsData`: one condensed record per input report, in
input order, with index-based fallback identity. -/
def extractPreviousRunsData (reports : List CtrfReport) : List PreviousRunData :=
  extractPreviousRunsDataAux 0 reports

-- ========================================
-- PROOF-SIDE HELPER DEFINITIONS
-- ========================================

/-- The tests of a report that carry a given name (the per-name slice of one
report's contribution to the aggregation map). -/
def testsNamed (tests : List CtrfTest) (name : String) : List CtrfTest :=
  tests.filter (fun t => decide (t.name = name))

/-- Attempts contributed by one test record: `1 + retries`. -/
def attemptsOf (t : CtrfTest) : Nat := 1 + t.retries.getD 0

/-- The `appearsInRuns` increment applied once per report containing the
name. -/
def bumpOnce (m : AggregatedTestMetrics) : AggregatedTestMetrics :=
  { m with appearsInRuns := m.appearsInRuns + 1 }

-- ========================================
-- CONCRETE SAMPLE DATA
-- ========================================

/-- An all-zero summary for reports whose summary is irrelevant. -/
def exSummary : Summary := ⟨0, 0, 0, 0, 0, 0, 0, 0⟩

/-- A test that ultimately passed after two retries, with no explicit
`flaky` flag. -/
def passedRetriesTest : CtrfTest :=
  ⟨"a", CtrfTestState.passed, 100, some 2, none⟩

/-- A test that ultimately failed after three retries, with no explicit
`flaky` flag. -/
def failedRetriesTest : CtrfTest :=
  ⟨"b", CtrfTestState.failed, 100, some 3, none⟩

/-- A single-test report containing `passedRetriesTest`. -/
def inferredFlakyReport : CtrfReport :=
  ⟨⟨exSummary, some [passedRetriesTest], none⟩, none⟩

/-- The accumulated metrics produced for test "a" by aggregating
`[inferredFlakyReport]`. -/
def inferredFlakyMetrics : AggregatedTestMetrics := ⟨⟨3, 2, 1, 0, 1, 0, 1, 100, 0⟩, 1⟩

/-- A report with two distinct passed tests: durations 100 and 50. -/
def twoTestReport : CtrfReport :=
  ⟨⟨exSummary, some [⟨"a", CtrfTestState.passed, 100, none, none⟩,
                     ⟨"b", CtrfTestState.passed, 50, none, none⟩], none⟩, none⟩

/-- An insights snapshot whose current values are 10/20/30/40/50. -/
def snapshotA : Insights :=
  ⟨⟨10, 0, 0⟩, ⟨20, 0, 0⟩, ⟨30, 0, 0⟩, ⟨40, 0, 0⟩, ⟨50, 0, 0⟩, 3, none⟩

/-- An insights snapshot whose current values are 4/8/12/16/20. -/
def snapshotB : Insights :=
  ⟨⟨4, 0, 0⟩, ⟨8, 0, 0⟩, ⟨12, 0, 0⟩, ⟨16, 0, 0⟩, ⟨20, 0, 0⟩, 2, none⟩

/-- A report carrying `snapshotA`. -/
def reportWithA : CtrfReport := ⟨⟨exSummary, some [], none⟩, some snapshotA⟩

/-- A report carrying `snapshotB`. -/
def reportWithB : CtrfReport := ⟨⟨exSummary, some [], none⟩, some snapshotB⟩

/-- A report with no insights attached. -/
def noInsightsReport : CtrfReport := ⟨⟨exSummary, some [], none⟩, none⟩

/-- A structurally malformed report: `results.tests` is missing. -/
def malformedReport : CtrfReport := ⟨⟨exSummary, none, none⟩, none⟩

/-- A report whose environment carries an empty-string `buildNumber`, with
summary `start = 1000`, `stop = 5000`, `passed = 5`, `failed = 0`. -/
def emptyBuildNumberReport : CtrfReport :=
  ⟨⟨⟨0, 5, 0, 0, 0, 0, 1000, 5000⟩, some [], some ⟨some "", none⟩⟩, none⟩

/-- The example report of the spec: `start = 1000`, `stop = 5000`,
`passed = 5`, `failed = 0`, no environment. -/
def specExampleReport : CtrfReport :=
  ⟨⟨⟨0, 5, 0, 0, 0, 0, 1000, 5000⟩, some [], none⟩, none⟩

-- ========================================
-- ASSOCIATION-LIST LEMMAS
-- ========================================

theorem alFind?_alSet_self {α : Type} (m : List (String × α)) (k : String) (v : α) :
    alFind? (alSet m k v) k = some v := by
  induction m with
  | nil => simp [alSet, alFind?]
  | cons p rest ih =>
      obtain ⟨k', w⟩ := p
      by_cases h : k' = k <;> simp [alSet, alFind?, h, ih]

theorem alFind?_alSet_ne {α : Type} (m : List (String × α)) (k key : String) (v : α)
    (h : key ≠ k) : alFind? (alSet m k v) key = alFind? m key := by
  have hk0 : ¬k = key := fun e => h (Eq.symm e)
  induction m with
  | nil => simp [alSet, alFind?, hk0]
  | cons p rest ih =>
      obtain ⟨k', w⟩ := p
      by_cases hk : k' = k
      · subst hk
        simp [alSet, alFind?, hk0]
      · simp [alSet, alFind?, hk, ih]

theorem alFind?_alUpdate_self {α : Type} (m : List (String × α)) (k : String)
    (f : α → α) : alFind? (alUpdate m k f) k = (alFind? m k).map f := by
  induction m with
  | nil => simp [alUpdate, alFind?]
  | cons p rest ih =>
      obtain ⟨k', w⟩ := p
      by_cases h : k' = k <;> simp [alUpdate, alFind?, h, ih]

theorem alFind?_alUpdate_ne {α : Type} (m : List (String × α)) (k key : String)
    (f : α → α) (h : key ≠ k) : alFind? (alUpdate m k f) key = alFind? m key := by
  have hk0 : ¬k = key := fun e => h (Eq.symm e)
  induction m with
  | nil => simp [alUpdate]
  | cons p rest ih =>
      obtain ⟨k', w⟩ := p
      by_cases hk : k' = k
      · subst hk
        simp [alUpdate, alFind?, hk0]
      · simp [alUpdate, alFind?, hk, ih]

-- ========================================
-- SINGLE-STEP AND FOLD LEMMAS FOR THE AGGREGATOR
-- ========================================

theorem recordTestResult_totalResults (m : AggregatedTestMetrics) (t : CtrfTest) :
    (recordTestResult m t).totalResults = m.totalResults + 1 := by
  simp only [recordTestResult]
  repeat' split
  all_goals rfl

theorem recordTestResult_totalAttempts (m : AggregatedTestMetrics) (t : CtrfTest) :
    (recordTestResult m t).totalAttempts = m.totalAttempts + attemptsOf t := by
  simp only [recordTestResult, attemptsOf]
  repeat' split
  all_goals rfl

theorem recordTestResult_duration (m : AggregatedTestMetrics) (t : CtrfTest) :
    (recordTestResult m t).totalResultsDuration = m.totalResultsDuration + t.duration := by
  simp only [recordTestResult]
  repeat' split
  all_goals rfl

theorem recordTestResult_appearsInRuns (m : AggregatedTestMetrics) (t : CtrfTest) :
    (recordTestResult m t).appearsInRuns = m.appearsInRuns := by
  simp only [recordTestResult]
  repeat' split
  all_goals rfl

theorem foldl_recordTestResult_totalResults (ts : List CtrfTest)
    (m : AggregatedTestMetrics) :
    (ts.foldl recordTestResult m).totalResults = m.totalResults + ts.length := by
  induction ts generalizing m with
  | nil => simp
  | cons t rest ih =>
      rw [List.foldl_cons, ih, recordTestResult_totalResults, List.length_cons]
      omega

theorem foldl_recordTestResult_totalAttempts (ts : List CtrfTest)
    (m : AggregatedTestMetrics) :
    (ts.foldl recordTestResult m).totalAttempts =
      m.totalAttempts + (ts.map attemptsOf).sum := by
  induction ts generalizing m with
  | nil => simp
  | cons t rest ih =>
      rw [List.foldl_cons, ih, recordTestResult_totalAttempts, List.map_cons,
        List.sum_cons]
      omega

theorem foldl_recordTestResult_duration (ts : List CtrfTest)
    (m : AggregatedTestMetrics) :
    (ts.foldl recordTestResult m).totalResultsDuration =
      m.totalResultsDuration + (ts.map CtrfTest.duration).sum := by
  induction ts generalizing m with
  | nil => simp
  | cons t rest ih =>
      rw [List.foldl_cons, ih, recordTestResult_duration, List.map_cons,
        List.sum_cons]
      ring

theorem foldl_recordTestResult_appearsInRuns (ts : List CtrfTest)
    (m : AggregatedTestMetrics) :
    (ts.foldl recordTestResult m).appearsInRuns = m.appearsInRuns := by
  induction ts generalizing m with
  | nil => simp
  | cons t rest ih =>
      rw [List.foldl_cons, ih, recordTestResult_appearsInRuns]

theorem alFind?_processTest_self (m : List (String × AggregatedTestMetrics))
    (t : CtrfTest) (name : String) (h : t.name = name) :
    alFind? (processTest m t) name =
      some (recordTestResult ((alFind? m name).getD emptyTestMetrics) t) := by
  subst h
  exact alFind?_alSet_self m t.name _

theorem alFind?_processTest_ne (m : List (String × AggregatedTestMetrics))
    (t : CtrfTest) (name : String) (h : name ≠ t.name) :
    alFind? (processTest m t) name = alFind? m name :=
  alFind?_alSet_ne m t.name name _ h

/-- Lookup after folding the tests of one report: the entry for `name`
accumulates exactly the tests named `name`, in order, on top of whatever was
there before (or the zero entry). -/
theorem alFind?_foldl_processTest (tests : List CtrfTest)
    (m : List (String × AggregatedTestMetrics)) (name : String) :
    alFind? (tests.foldl processTest m) name =
      if testsNamed tests name = [] then alFind? m name
      else some ((testsNamed tests name).foldl recordTestResult
        ((alFind? m name).getD emptyTestMetrics)) := by
  induction tests generalizing m with
  | nil => simp [testsNamed]
  | cons t rest ih =>
      by_cases h : t.name = name
      · have hnamed : testsNamed (t :: rest) name = t :: testsNamed rest name := by
          simp [testsNamed, h]
        have hfind := alFind?_processTest_self m t name h
        rw [List.foldl_cons, ih (processTest m t), hnamed, hfind]
        by_cases hrest : testsNamed rest name = []
        · simp [hrest]
        · simp [hrest]
      · have hnamed : testsNamed (t :: rest) name = testsNamed rest name := by
          simp [testsNamed, h]
        have hfind := alFind?_processTest_ne m t name (fun e => h (Eq.symm e))
        rw [List.foldl_cons, ih (processTest m t), hnamed, hfind]

theorem alFind?_foldl_bump_not_mem (names : List String)
    (m : List (String × AggregatedTestMetrics)) (name : String)
    (h : name ∉ names) :
    alFind? (names.foldl bumpAppearsInRuns m) name = alFind? m name := by
  induction names generalizing m with
  | nil => simp
  | cons n rest ih =>
      rw [List.foldl_cons, ih _ (fun hm => h (List.mem_cons_of_mem n hm))]
      exact alFind?_alUpdate_ne m n name _ (fun e => h (e ▸ List.mem_cons_self n rest))

/-- Folding the per-report name set bumps `appearsInRuns` exactly once for a
member of a duplicate-free name list. -/
theorem alFind?_foldl_bump_mem (names : List String)
    (m : List (String × AggregatedTestMetrics)) (name : String)
    (hnd : names.Nodup) (h : name ∈ names) :
    alFind? (names.foldl bumpAppearsInRuns m) name =
      (alFind? m name).map bumpOnce := by
  induction names generalizing m with
  | nil => simp at h
  | cons n rest ih =>
      rw [List.foldl_cons]
      by_cases hn : name = n
      · subst hn
        have hnot : name ∉ rest := (List.nodup_cons.mp hnd).1
        rw [alFind?_foldl_bump_not_mem rest _ name hnot]
        have := alFind?_alUpdate_self m name
          (fun v => { v with appearsInRuns := v.appearsInRuns + 1 })
        rw [bumpAppearsInRuns, this]
        rfl
      · have hmem : name ∈ rest := by
          rcases List.mem_cons.mp h with h1 | h1
          · exact absurd h1 hn
          · exact h1
        rw [ih _ (List.nodup_cons.mp hnd).2 hmem, bumpAppearsInRuns,
          alFind?_alUpdate_ne m n name _ hn]

/-- Lookup after folding one entire valid report: the per-name contribution
plus one `appearsInRuns` bump. -/
theorem alFind?_processReport_mem (m : List (String × AggregatedTestMetrics))
    (r : CtrfReport) (tests : List CtrfTest) (hr : r.results.tests = some tests)
    (name : String) (hmem : name ∈ tests.map CtrfTest.name) :
    alFind? (processReport m r) name =
      some (bumpOnce ((testsNamed tests name).foldl recordTestResult
        ((alFind? m name).getD emptyTestMetrics))) := by
  have hval : validateReportForInsights r = true := by
    simp [validateReportForInsights, hr]
  have hne : testsNamed tests name ≠ [] := by
    rcases List.mem_map.mp hmem with ⟨t, ht, hname⟩
    intro hnil
    have : t ∈ testsNamed tests name := by
      simp [testsNamed, List.mem_filter, ht, hname]
    rw [hnil] at this
    simp at this
  rw [processReport, if_pos hval, hr]
  simp only [Option.getD_some]
  rw [alFind?_foldl_bump_mem _ _ _ (List.nodup_dedup _) (List.mem_dedup.mpr hmem),
    alFind?_foldl_processTest, if_neg hne]
  rfl

theorem processReport_invalid (m : List (String × AggregatedTestMetrics))
    (r : CtrfReport) (h : validateReportForInsights r = false) :
    processReport m r = m := by
  simp [processReport, h]

-- ========================================
-- EXTRACTION LEMMAS
-- ========================================

theorem extractPreviousRunsDataAux_length (n : Nat) (reports : List CtrfReport) :
    (extractPreviousRunsDataAux n reports).length = reports.length := by
  induction reports generalizing n with
  | nil => rfl
  | cons r rest ih => simp [extractPreviousRunsDataAux, ih]

theorem extractPreviousRunsDataAux_get? (reports : List CtrfReport) (n i : Nat) :
    (extractPreviousRunsDataAux n reports).get? i =
      (reports.get? i).map (extractRunData (n + i)) := by
  induction reports generalizing n i with
  | nil => simp [extractPreviousRunsDataAux]
  | cons r rest ih =>
      cases i with
      | zero => simp [extractPreviousRunsDataAux]
      | succ j =>
          have harith : n + (j + 1) = (n + 1) + j := by omega
          simp only [extractPreviousRunsDataAux, List.get?_cons_succ, harith]
          exact ih (n + 1) j

theorem extractPreviousRunsDataAux_map_flaky (n : Nat) (reports : List CtrfReport) :
    (extractPreviousRunsDataAux n reports).map PreviousRunData.flaky =
      reports.map (fun r =>
        ((r.results.tests.getD []).filter (fun t => decide (t.flaky = some true))).length) := by
  induction reports generalizing n with
  | nil => rfl
  | cons r rest ih => simp [extractPreviousRunsDataAux, ih, extractRunData]

-- ========================================
-- CLAIM THEOREMS
-- ========================================

/-- Claim C1: `isTestFlaky` holds exactly when the test's `flaky` flag is
`true`, or its retries count is positive and its final status is `passed`;
in particular a passed test with two retries and no flag is flaky, and a
failed test with positive retries is not. -/
theorem isTestFlaky_spec :
    (∀ t : CtrfTest, isTestFlaky t = true ↔
      (t.flaky = some true ∨
        (0 < t.retries.getD 0 ∧ t.status = CtrfTestState.passed))) ∧
    isTestFlaky passedRetriesTest = true ∧
    isTestFlaky failedRetriesTest = false := by
  refine ⟨fun t => ?_, by decide, by decide⟩
  cases hf : t.flaky with
  | none => simp [isTestFlaky, hf]
  | some b => cases b <;> simp [isTestFlaky, hf]

/-- Witness for C1 at the concrete inputs named in the claim. -/
theorem isTestFlaky_spec_witness :
    isTestFlaky passedRetriesTest = true ∧ isTestFlaky failedRetriesTest = false :=
  ⟨(isTestFlaky_spec.1 passedRetriesTest).mpr (Or.inr (by decide)),
   isTestFlaky_spec.2.2⟩

/-- Claim C2: the run-level rate derivers are total on zero denominators —
consolidated `totalAttempts = 0` gives flaky rate `0`, and consolidated
`totalResults = 0` gives fail rate, skipped rate and average test duration
`0`. -/
theorem rateDerivers_zero_denominator (reports : List CtrfReport) :
    ((consolidateTestMetricsToRunMetrics
        (aggregateTestMetricsAcrossReports reports)).totalAttempts = 0 →
      calculateFlakyRateFromMetrics
        (consolidateTestMetricsToRunMetrics
          (aggregateTestMetricsAcrossReports reports)) = 0) ∧
    ((consolidateTestMetricsToRunMetrics
        (aggregateTestMetricsAcrossReports reports)).totalResults = 0 →
      calculateFailRateFromMetrics
        (consolidateTestMetricsToRunMetrics
          (aggregateTestMetricsAcrossReports reports)) = 0 ∧
      calculateSkippedRateFromMetrics
        (consolidateTestMetricsToRunMetrics
          (aggregateTestMetricsAcrossReports reports)) = 0 ∧
      calculateAverageTestDurationFromMetrics
        (consolidateTestMetricsToRunMetrics
          (aggregateTestMetricsAcrossReports reports)) = 0) := by
  constructor
  · intro h
    simp [calculateFlakyRateFromMetrics, h]
  · intro h
    simp [calculateFailRateFromMetrics, calculateSkippedRateFromMetrics,
      calculateAverageTestDurationFromMetrics, h]

/-- Witness for C2 at the empty report list, whose consolidated counters are
all zero. -/
theorem rateDerivers_zero_denominator_witness :
    calculateFlakyRateFromMetrics
      (consolidateTestMetricsToRunMetrics (aggregateTestMetricsAcrossReports [])) = 0 ∧
    calculateFailRateFromMetrics
      (consolidateTestMetricsToRunMetrics (aggregateTestMetricsAcrossReports [])) = 0 ∧
    calculateSkippedRateFromMetrics
      (consolidateTestMetricsToRunMetrics (aggregateTestMetricsAcrossReports [])) = 0 ∧
    calculateAverageTestDurationFromMetrics
      (consolidateTestMetricsToRunMetrics (aggregateTestMetricsAcrossReports [])) = 0 := by
  obtain ⟨h1, h2⟩ := rateDerivers_zero_denominator []
  exact ⟨h1 rfl, h2 rfl⟩

/-- Claim C3: when both reports carry populated insights, the baseline
differ returns, for each of the five metrics, `current` from the current
snapshot, `previous` from the previous snapshot's current value, and
`change` their difference rounded to two decimals (no aggregation: the
output depends only on the two snapshots). -/
theorem baseline_diff_populated (cur prev : CtrfReport) (ci pins : Insights)
    (hc : cur.insights = some ci) (hp : prev.insights = some pins) :
    calculateReportInsightsBaseline cur prev = some
      { flakyRate :=
          { current := ci.flakyRate.current
            previous := pins.flakyRate.current
            change := round2 (ci.flakyRate.current - pins.flakyRate.current) }
        failRate :=
          { current := ci.failRate.current
            previous := pins.failRate.current
            change := round2 (ci.failRate.current - pins.failRate.current) }
        skippedRate :=
          { current := ci.skippedRate.current
            previous := pins.skippedRate.current
            change := round2 (ci.skippedRate.current - pins.skippedRate.current) }
        averageTestDuration :=
          { current := ci.averageTestDuration.current
            previous := pins.averageTestDuration.current
            change := round2 (ci.averageTestDuration.current -
              pins.averageTestDuration.current) }
        averageRunDuration :=
          { current := ci.averageRunDuration.current
            previous := pins.averageRunDuration.current
            change := round2 (ci.averageRunDuration.current -
              pins.averageRunDuration.current) }
        reportsAnalyzed := ci.reportsAnalyzed
        extra := ci.extra } := by
  simp [calculateReportInsightsBaseline, hc, hp]

/-- Witness for C3: diffing current `flakyRate.current = 10` against
previous `flakyRate.current = 4` yields `current = 10`, `previous = 4`,
`change = 6` (and likewise for the other metrics). -/
theorem baseline_diff_populated_witness :
    calculateReportInsightsBaseline reportWithA reportWithB = some
      ⟨⟨10, 4, 6⟩, ⟨20, 8, 12⟩, ⟨30, 12, 18⟩, ⟨40, 16, 24⟩, ⟨50, 20, 30⟩, 3, none⟩ := by
  have h := baseline_diff_populated reportWithA reportWithB snapshotA snapshotB rfl rfl
  rw [h]
  norm_num [snapshotA, snapshotB, round2]

/-- Claim C8: when either report lacks a populated insights snapshot, the
baseline differ is total and returns the current report's own (possibly
absent) snapshot unchanged; and any snapshot coming out of the current-only
composer carries `previous = 0` and `change = 0` in every metric, so those
fields of the degraded result are plain zeros, not a no-data marker. -/
theorem baseline_diff_degraded :
    (∀ cur prev : CtrfReport, (cur.insights = none ∨ prev.insights = none) →
      calculateReportInsightsBaseline cur prev = cur.insights) ∧
    (∀ (r : CtrfReport) (hist : List CtrfReport),
      (calculateCurrentInsights r hist).flakyRate.previous = 0 ∧
      (calculateCurrentInsights r hist).flakyRate.change = 0 ∧
      (calculateCurrentInsights r hist).failRate.previous = 0 ∧
      (calculateCurrentInsights r hist).failRate.change = 0 ∧
      (calculateCurrentInsights r hist).skippedRate.previous = 0 ∧
      (calculateCurrentInsights r hist).skippedRate.change = 0 ∧
      (calculateCurrentInsights r hist).averageTestDuration.previous = 0 ∧
      (calculateCurrentInsights r hist).averageTestDuration.change = 0 ∧
      (calculateCurrentInsights r hist).averageRunDuration.previous = 0 ∧
      (calculateCurrentInsights r hist).averageRunDuration.change = 0) := by
  constructor
  · intro cur prev h
    cases hc : cur.insights with
    | none =>
        cases hp : prev.insights <;>
          simp [calculateReportInsightsBaseline, hc, hp]
    | some ci =>
        cases hp : prev.insights with
        | none => simp [calculateReportInsightsBaseline, hc, hp]
        | some pins =>
            rw [hc, hp] at h
            rcases h with h | h <;> simp at h
  · intro r hist
    exact ⟨rfl, rfl, rfl, rfl, rfl, rfl, rfl, rfl, rfl, rfl⟩

/-- Witness for C8: a current report with no insights against a report with
insights yields the current report's absent snapshot (and the composer's
`previous` field really is `0`). -/
theorem baseline_diff_degraded_witness :
    calculateReportInsightsBaseline noInsightsReport reportWithB = none ∧
    (calculateCurrentInsights noInsightsReport []).flakyRate.previous = 0 := by
  constructor
  · exact baseline_diff_degraded.1 noInsightsReport reportWithB (Or.inl rfl)
  · exact (baseline_diff_degraded.2 noInsightsReport []).1

/-- Claim C4 counterexample: for the metrics accumulated from a single
passed test with two retries, the implemented test-level flaky rate is
`100` (denominator `totalResults = 1`), while the claimed formula
`100 × totalResultsFlaky / totalAttempts` (denominator `totalAttempts = 3`)
rounds to `33.33` — so the test-level flaky rate is not the run-level
formula applied to the single test's counters. -/
theorem testFlakyRate_denominator_counterexample :
    alFind? (aggregateTestMetricsAcrossReports [inferredFlakyReport]) "a" =
      some inferredFlakyMetrics ∧
    inferredFlakyMetrics.totalAttempts = 3 ∧
    inferredFlakyMetrics.totalResults = 1 ∧
    inferredFlakyMetrics.totalResultsFlaky = 1 ∧
    (calculateTestFlakyRate "a" inferredFlakyMetrics).current = 100 ∧
    round2 (100 * (inferredFlakyMetrics.totalResultsFlaky : ℚ) /
      (inferredFlakyMetrics.totalAttempts : ℚ)) = 3333 / 100 ∧
    (100 : ℚ) ≠ 3333 / 100 := by
  refine ⟨?_, rfl, rfl, rfl, ?_, ?_, by norm_num⟩
  · simp [aggregateTestMetricsAcrossReports, processReport, processTest, alFind?, alSet,
      alUpdate, bumpAppearsInRuns, recordTestResult, emptyTestMetrics,
      validateReportForInsights, inferredFlakyReport, passedRetriesTest, exSummary,
      isTestFlaky, List.dedup, inferredFlakyMetrics]
  · simp [calculateTestFlakyRate, inferredFlakyMetrics, round2]
    norm_num [round_eq, Int.floor_eq_iff]
  · simp [inferredFlakyMetrics, round2]
    norm_num [round_eq, Int.floor_eq_iff]

/-- Claim C4 amended: the test-level fail rate, skipped rate and average
duration are exactly the run-level derivers applied to the single test's
accumulated counters; the test-level flaky rate instead divides by the
test's `totalResults` (not `totalAttempts`), with value `0` when
`totalResults` is `0`. -/
theorem testLevelRates_amended (testName : String) (m : AggregatedTestMetrics) :
    (calculateTestFailRate testName m).current =
      calculateFailRateFromMetrics m.toAggregatedRunMetrics ∧
    (calculateTestSkippedRate testName m).current =
      calculateSkippedRateFromMetrics m.toAggregatedRunMetrics ∧
    (calculateTestAverageDuration testName m).current =
      calculateAverageTestDurationFromMetrics m.toAggregatedRunMetrics ∧
    (calculateTestFlakyRate testName m).current =
      (if m.totalResults = 0 then 0
       else round2 ((m.totalResultsFlaky : ℚ) / (m.totalResults : ℚ) * 100)) ∧
    (m.totalResults = 0 → (calculateTestFlakyRate testName m).current = 0) := by
  refine ⟨rfl, rfl, rfl, rfl, ?_⟩
  intro h
  simp [calculateTestFlakyRate, h]

/-- Witness for the amended C4 at the zero entry. -/
theorem testLevelRates_amended_witness :
    (calculateTestFlakyRate "a" emptyTestMetrics).current = 0 :=
  (testLevelRates_amended "a" emptyTestMetrics).2.2.2.2 rfl

/-- Claim C5: evaluation of the average-run-duration deriver at one report
containing two distinct tests (durations 100 and 50). The consolidation
step sets `reportsAnalyzed` to the number of distinct test names (2), not
the number of reports folded (1), so the result is `150 / 2 = 75` instead
of the claimed `150 / 1 = 150` — contradicting the source's own field
documentation of `reportsAnalyzed` as the total number of reports
analyzed. -/
theorem avgRunDuration_denominator_eval :
    (consolidateTestMetricsToRunMetrics
      (aggregateTestMetricsAcrossReports [twoTestReport])).reportsAnalyzed = 2 ∧
    (consolidateTestMetricsToRunMetrics
      (aggregateTestMetricsAcrossReports [twoTestReport])).totalResultsDuration = 150 ∧
    calculateAverageRunDurationFromMetrics
      (consolidateTestMetricsToRunMetrics
        (aggregateTestMetricsAcrossReports [twoTestReport])) = 75 ∧
    (75 : ℚ) ≠ 150 := by
  have hcons : consolidateTestMetricsToRunMetrics
      (aggregateTestMetricsAcrossReports [twoTestReport]) =
      ⟨2, 0, 2, 0, 2, 0, 0, 150, 2⟩ := by
    simp [aggregateTestMetricsAcrossReports, processReport, processTest, alFind?, alSet,
      alUpdate, bumpAppearsInRuns, recordTestResult, emptyTestMetrics,
      validateReportForInsights, twoTestReport, exSummary, isTestFlaky, List.dedup,
      consolidateTestMetricsToRunMetrics]
    norm_num
  rw [hcons]
  refine ⟨rfl, rfl, ?_, by norm_num⟩
  simp [calculateAverageRunDurationFromMetrics, round2]
  norm_num [round_eq, Int.floor_eq_iff]

/-- Claim C7: a report failing structural validation contributes nothing to
aggregation — folding any report list gives the same metrics map as folding
the sublist of structurally valid reports. -/
theorem aggregate_skips_malformed (reports : List CtrfReport) :
    aggregateTestMetricsAcrossReports reports =
      aggregateTestMetricsAcrossReports (reports.filter validateReportForInsights) := by
  have key : ∀ (rs : List CtrfReport) (m : List (String × AggregatedTestMetrics)),
      rs.foldl processReport m =
        (rs.filter validateReportForInsights).foldl processReport m := by
    intro rs
    induction rs with
    | nil => intro m; rfl
    | cons r rest ih =>
        intro m
        by_cases h : validateReportForInsights r = true
        · rw [List.foldl_cons, List.filter_cons_of_pos h, List.foldl_cons, ih]
        · have h' : validateReportForInsights r = false := by
            cases hh : validateReportForInsights r
            · rfl
            · exact absurd hh h
          rw [List.foldl_cons, processReport_invalid _ _ h',
            List.filter_cons_of_neg (by rw [h']; exact Bool.false_ne_true), ih]
  exact key reports []

/-- Claim C9 counterexample: a report whose `environment.buildNumber` is
present but empty does not get that build number as id — the JS `||`
treats the empty string as falsy and the extractor falls back to
`${summary.start}_${index}`. -/
theorem extract_id_empty_buildNumber_counterexample :
    (extractPreviousRunsData [emptyBuildNumberReport]).map PreviousRunData.id =
      ["1000_0"] ∧
    emptyBuildNumberReport.results.environment.bind CtrfEnvironment.buildNumber =
      some "" ∧
    ("1000_0" : String) ≠ "" := by
  refine ⟨?_, rfl, by decide⟩
  simp [extractPreviousRunsData, extractPreviousRunsDataAux, extractRunData, jsStringOr,
    emptyBuildNumberReport]
  decide

/-- Claim C9 amended: historical extraction returns exactly one record per
input report in input order; `date` is `summary.start`, `duration` is
`summary.stop - summary.start`, `status` is passed/failed/mixed by the
failed/passed counts, and `id` is the build number when it is present and
non-empty, with the `${summary.start}_${index}` fallback when the build
number is absent or empty. -/
theorem extract_previous_runs_amended (reports : List CtrfReport)
    (hval : ∀ r ∈ reports, validateReportForInsights r = true) :
    (extractPreviousRunsData reports).length = reports.length ∧
    ∀ (i : Nat) (r : CtrfReport), reports.get? i = some r →
      ∃ rec, (extractPreviousRunsData reports).get? i = some rec ∧
        rec.date = r.results.summary.start ∧
        rec.duration = r.results.summary.stop - r.results.summary.start ∧
        (r.results.summary.failed = 0 → rec.status = RunStatus.passed) ∧
        (0 < r.results.summary.failed → r.results.summary.passed = 0 →
          rec.status = RunStatus.failed) ∧
        (0 < r.results.summary.failed → 0 < r.results.summary.passed →
          rec.status = RunStatus.mixed) ∧
        (∀ b, r.results.environment.bind CtrfEnvironment.buildNumber = some b →
          b ≠ "" → rec.id = b) ∧
        ((r.results.environment.bind CtrfEnvironment.buildNumber = none ∨
          r.results.environment.bind CtrfEnvironment.buildNumber = some "") →
          rec.id = toString r.results.summary.start ++ "_" ++ toString i) := by
  constructor
  · exact extractPreviousRunsDataAux_length 0 reports
  · intro i r hget
    refine ⟨extractRunData i r, ?_, rfl, rfl, ?_, ?_, ?_, ?_, ?_⟩
    · rw [extractPreviousRunsData, extractPreviousRunsDataAux_get? reports 0 i, hget]
      simp
    · intro h
      simp [extractRunData, h]
    · intro h1 h2
      simp [extractRunData, h1, h2]
    · intro h1 h2
      simp [extractRunData, h1, h2]
    · intro b hb hbne
      simp [extractRunData, jsStringOr, hb, hbne]
    · intro h
      rcases h with h | h <;> simp [extractRunData, jsStringOr, h]

/-- Witness for C9 (amended) at the spec's example: start 1000, stop 5000,
passed 5, failed 0, no build number, index 2. -/
theorem extract_previous_runs_amended_witness :
    ∃ rec, (extractPreviousRunsData
        [noInsightsReport, noInsightsReport, specExampleReport]).get? 2 = some rec ∧
      rec.id = "1000_2" ∧ rec.status = RunStatus.passed ∧ rec.duration = 4000 := by
  have h := extract_previous_runs_amended
    [noInsightsReport, noInsightsReport, specExampleReport]
    (by
      intro r hr
      simp only [List.mem_cons, List.not_mem_nil, or_false] at hr
      rcases hr with rfl | rfl | rfl <;> rfl)
  obtain ⟨-, h2⟩ := h
  obtain ⟨rec, hget, hdate, hdur, hpassed, hfailed, hmixed, hb, hfb⟩ :=
    h2 2 specExampleReport rfl
  refine ⟨rec, hget, ?_, hpassed rfl, ?_⟩
  · rw [hfb (Or.inl rfl)]
    decide
  · rw [hdur]
    decide

/-- Claim C10: the historical record's `flaky` field counts exactly the
tests whose explicit `flaky` flag is strictly `true`; a test the flakiness
predicate would infer flaky (passed with positive retries, no flag) is not
counted. -/
theorem historical_flaky_explicit_only (reports : List CtrfReport)
    (hval : ∀ r ∈ reports, validateReportForInsights r = true) :
    (extractPreviousRunsData reports).map PreviousRunData.flaky =
      reports.map (fun r =>
        ((r.results.tests.getD []).filter
          (fun t => decide (t.flaky = some true))).length) ∧
    isTestFlaky passedRetriesTest = true ∧
    ([passedRetriesTest].filter (fun t => decide (t.flaky = some true))).length = 0 :=
  ⟨extractPreviousRunsDataAux_map_flaky 0 reports, by decide, by decide⟩

/-- Witness for C10: the report containing only the inferred-flaky test has
historical flaky count 0. -/
theorem historical_flaky_explicit_only_witness :
    (extractPreviousRunsData [inferredFlakyReport]).map PreviousRunData.flaky = [0] := by
  have h := (historical_flaky_explicit_only [inferredFlakyReport]
    (by
      intro r hr
      simp only [List.mem_singleton] at hr
      subst hr
      rfl)).1
  rw [h]
  simp [inferredFlakyReport, passedRetriesTest]

theorem bumpOnce_totalResults (m : AggregatedTestMetrics) :
    (bumpOnce m).totalResults = m.totalResults := rfl

theorem bumpOnce_totalAttempts (m : AggregatedTestMetrics) :
    (bumpOnce m).totalAttempts = m.totalAttempts := rfl

theorem bumpOnce_duration (m : AggregatedTestMetrics) :
    (bumpOnce m).totalResultsDuration = m.totalResultsDuration := rfl

theorem bumpOnce_appearsInRuns (m : AggregatedTestMetrics) :
    (bumpOnce m).appearsInRuns = m.appearsInRuns + 1 := rfl

/-- Claim C6: aggregating the same structurally valid report twice doubles
`totalResults`, `totalAttempts` and the accumulated duration of every name
it contains, relative to aggregating it once, while `appearsInRuns` is 1
for `[R]` and exactly 2 for `[R, R]` (one bump per report). -/
theorem aggregate_duplicate_doubles (R : CtrfReport)
    (hval : validateReportForInsights R = true) (name : String)
    (hmem : name ∈ (R.results.tests.getD []).map CtrfTest.name) :
    ∃ m1 m2,
      alFind? (aggregateTestMetricsAcrossReports [R]) name = some m1 ∧
      alFind? (aggregateTestMetricsAcrossReports [R, R]) name = some m2 ∧
      m2.totalResults = 2 * m1.totalResults ∧
      m2.totalAttempts = 2 * m1.totalAttempts ∧
      m2.totalResultsDuration = 2 * m1.totalResultsDuration ∧
      m1.appearsInRuns = 1 ∧
      m2.appearsInRuns = 2 := by
  rw [validateReportForInsights] at hval
  obtain ⟨tests, hr⟩ := Option.isSome_iff_exists.mp hval
  have hmem' : name ∈ tests.map CtrfTest.name := by
    rw [hr] at hmem
    exact hmem
  have hone : alFind? (aggregateTestMetricsAcrossReports [R]) name =
      some (bumpOnce ((testsNamed tests name).foldl recordTestResult
        emptyTestMetrics)) := by
    have h := alFind?_processReport_mem [] R tests hr name hmem'
    simpa [aggregateTestMetricsAcrossReports, alFind?] using h
  have htwo : alFind? (aggregateTestMetricsAcrossReports [R, R]) name =
      some (bumpOnce ((testsNamed tests name).foldl recordTestResult
        (bumpOnce ((testsNamed tests name).foldl recordTestResult
          emptyTestMetrics)))) := by
    have hstep := alFind?_processReport_mem (processReport [] R) R tests hr name hmem'
    have hfirst : alFind? (processReport [] R) name =
        some (bumpOnce ((testsNamed tests name).foldl recordTestResult
          emptyTestMetrics)) := by
      have h := alFind?_processReport_mem [] R tests hr name hmem'
      simpa [alFind?] using h
    rw [hfirst] at hstep
    have hagg : aggregateTestMetricsAcrossReports [R, R] =
        processReport (processReport [] R) R := rfl
    rw [hagg, hstep]
    rfl
  refine ⟨_, _, hone, htwo, ?_, ?_, ?_, ?_, ?_⟩
  · rw [bumpOnce_totalResults, bumpOnce_totalResults,
      foldl_recordTestResult_totalResults, foldl_recordTestResult_totalResults,
      bumpOnce_totalResults, foldl_recordTestResult_totalResults,
      show emptyTestMetrics.totalResults = 0 from rfl]
    omega
  · rw [bumpOnce_totalAttempts, bumpOnce_totalAttempts,
      foldl_recordTestResult_totalAttempts, foldl_recordTestResult_totalAttempts,
      bumpOnce_totalAttempts, foldl_recordTestResult_totalAttempts,
      show emptyTestMetrics.totalAttempts = 0 from rfl]
    omega
  · rw [bumpOnce_duration, bumpOnce_duration,
      foldl_recordTestResult_duration, foldl_recordTestResult_duration,
      bumpOnce_duration, foldl_recordTestResult_duration]
    show emptyTestMetrics.totalResultsDuration +
        ((testsNamed tests name).map CtrfTest.duration).sum +
        ((testsNamed tests name).map CtrfTest.duration).sum =
      2 * (emptyTestMetrics.totalResultsDuration +
        ((testsNamed tests name).map CtrfTest.duration).sum)
    rw [show emptyTestMetrics.totalResultsDuration = 0 from rfl]
    ring
  · rw [bumpOnce_appearsInRuns, foldl_recordTestResult_appearsInRuns]
    rfl
  · rw [bumpOnce_appearsInRuns, foldl_recordTestResult_appearsInRuns,
      bumpOnce_appearsInRuns, foldl_recordTestResult_appearsInRuns]
    rfl

/-- Witness for C6 at the one-test report. -/
theorem aggregate_duplicate_doubles_witness :
    ∃ m1 m2,
      alFind? (aggregateTestMetricsAcrossReports [inferredFlakyReport]) "a" = some m1 ∧
      alFind? (aggregateTestMetricsAcrossReports
        [inferredFlakyReport, inferredFlakyReport]) "a" = some m2 ∧
      m2.totalResults = 2 * m1.totalResults ∧
      m2.totalAttempts = 2 * m1.totalAttempts ∧
      m2.totalResultsDuration = 2 * m1.totalResultsDuration ∧
      m1.appearsInRuns = 1 ∧
      m2.appearsInRuns = 2 :=
  aggregate_duplicate_doubles inferredFlakyReport rfl "a" (by decide)

end Ctrf
